import Mathlib

set_option linter.unusedVariables false

/- Shallow embedding of the RampTrack client authentication/session subsystem:
   the credential roster (src/frontend/src/data/userRoster.ts), the session
   store and authentication state machine (the AuthProvider context in
   App.tsx), the session validation gate (src/frontend/src/lib/
   ensureUserContext.ts) and the hash-based view router (App.tsx).

   JavaScript strings, JSON values and localStorage are modelled explicitly.
   JSON.parse and JSON.stringify are host-library functions; where the code
   calls them they are passed in as function parameters (`parse`,
   `stringify`), so theorems quantify over every conforming library
   behaviour. -/

namespace RampTrack

/-! ### JavaScript value model -/

mutual

/-- A JSON value, as produced by `JSON.parse`. Arrays and objects are given
by auxiliary mutual inductives so that equality stays decidable. -/
inductive Json where
  | null : Json
  | jbool (b : Bool) : Json
  | num (n : Int) : Json
  | str (s : String) : Json
  | arr (xs : JsonArr) : Json
  | obj (fields : JsonObj) : Json
  deriving DecidableEq

/-- A JSON array (a snoc-free list of `Json`). -/
inductive JsonArr where
  | nil : JsonArr
  | cons (hd : Json) (tl : JsonArr) : JsonArr
  deriving DecidableEq

/-- A JSON object: an association list of key/value pairs. `JSON.parse`
output never has duplicate keys after its last-wins collapse, and every
object built in this file is duplicate-free, so first-match lookup is
exact. -/
inductive JsonObj where
  | nil : JsonObj
  | cons (k : String) (v : Json) (tl : JsonObj) : JsonObj
  deriving DecidableEq

end

/-- Key lookup in a JSON object; `none` models the JS `undefined` of a
missing property. -/
def JsonObj.get : JsonObj → String → Option Json
  | .nil, _ => none
  | .cons k v tl, key => if k = key then some v else tl.get key

/-- JS property access `v.key`: an `Option Json` where `none` is
`undefined`. Access on a non-object yields `undefined` (such accesses are
always guarded by a truthiness check in the embedded code). -/
def jsGet (v : Option Json) (key : String) : Option Json :=
  match v with
  | some (.obj fields) => fields.get key
  | _ => none

/-- JS truthiness of a JSON-or-undefined value. -/
def jsTruthy : Option Json → Bool
  | none => false
  | some .null => false
  | some (.jbool b) => b
  | some (.num n) => n != 0
  | some (.str s) => s != ""
  | some (.arr _) => true
  | some (.obj _) => true

/-- JS `a || b` on JSON-or-undefined values. -/
def jsOr (a b : Option Json) : Option Json := if jsTruthy a then a else b

/-- JS `Array.isArray`. -/
def jsIsArray : Option Json → Bool
  | some (.arr _) => true
  | _ => false

/-- JS `xs[0]`: the first element of an array, `undefined` otherwise. -/
def jsIndex0 : Option Json → Option Json
  | some (.arr (.cons hd _)) => some hd
  | _ => none

/-- The whitespace class removed by `String.prototype.trim` (ASCII part). -/
def jsIsWs (c : Char) : Bool :=
  c == ' ' || c == '\t' || c == '\n' || c == '\r' || c == '\x0b' || c == '\x0c'

/-- JS `String.prototype.trim`. -/
def jsTrim (s : String) : String :=
  String.mk (((s.data.dropWhile jsIsWs).reverse.dropWhile jsIsWs).reverse)

/-- ASCII lower-casing of one character, as `toLowerCase` does on ASCII. -/
def jsCharLower (c : Char) : Char :=
  if 'A' ≤ c && c ≤ 'Z' then Char.ofNat (c.toNat + 32) else c

/-- JS `String.prototype.toLowerCase` (ASCII data). -/
def jsToLower (s : String) : String :=
  String.mk (s.data.map jsCharLower)

/-- JS `a || b` where both sides are strings. -/
def strOr (a b : String) : String := if a ≠ "" then a else b

/-- JS `a || b` where `a` may be `undefined`/`null` (modelled as `none`). -/
def optStrOr (a : Option String) (b : String) : String :=
  match a with
  | some s => strOr s b
  | none => b

/-- Truthiness of a nullable string (`null`/`undefined` and `""` are
falsy). -/
def strTruthyOpt : Option String → Bool
  | some s => s != ""
  | none => false

/-- JS `String.prototype.includes`: substring containment. -/
def strContains (s pat : String) : Bool :=
  (List.range (s.length + 1)).any fun i => (s.data.drop i).take pat.data.length == pat.data

/-! ### Credential roster (src/frontend/src/data/userRoster.ts) -/

/-- One roster record (`UserRosterEntry`); `email` and `password` are
optional in the source interface. -/
structure UserRosterEntry where
  badgeId : String
  email : Option String := none
  password : Option String := none
  role : String
  displayName : String
  employeeId : String
  deriving DecidableEq

/-- The full `USER_ROSTER` constant, entry for entry. -/
def USER_ROSTER : List UserRosterEntry := [
  { badgeId := "DEMO001", email := some "operator@demo.com", password := some "test123",
    role := "agent", displayName := "Demo Operator", employeeId := "DEMO001" },
  { badgeId := "970251", email := some "970251", password := some "test123",
    role := "manager", displayName := "Jayson James", employeeId := "970251" },
  { badgeId := "970231", email := some "admin1@ramptrack.com", password := some "admin123",
    role := "admin", displayName := "Admin User 1", employeeId := "970231" },
  { badgeId := "970232", email := some "admin2@ramptrack.com", password := some "admin123",
    role := "admin", displayName := "Admin User 2", employeeId := "970232" },
  { badgeId := "970233", email := some "agent1@ramptrack.com", password := some "agent123",
    role := "agent", displayName := "Agent User 1", employeeId := "970233" },
  { badgeId := "970234", email := some "agent2@ramptrack.com", password := some "agent123",
    role := "agent", displayName := "Agent User 2", employeeId := "970234" },
  { badgeId := "970235", email := some "agent3@ramptrack.com", password := some "agent123",
    role := "agent", displayName := "Agent User 3", employeeId := "970235" },
  { badgeId := "970301", role := "operator", displayName := "Operator 1", employeeId := "970301" },
  { badgeId := "970302", role := "operator", displayName := "Operator 2", employeeId := "970302" },
  { badgeId := "970303", role := "operator", displayName := "Operator 3", employeeId := "970303" },
  { badgeId := "970304", role := "operator", displayName := "Operator 4", employeeId := "970304" },
  { badgeId := "970305", role := "operator", displayName := "Operator 5", employeeId := "970305" },
  { badgeId := "970306", role := "operator", displayName := "Operator 6", employeeId := "970306" },
  { badgeId := "970307", role := "operator", displayName := "Operator 7", employeeId := "970307" },
  { badgeId := "970308", role := "operator", displayName := "Operator 8", employeeId := "970308" },
  { badgeId := "970309", role := "operator", displayName := "Operator 9", employeeId := "970309" },
  { badgeId := "970310", role := "operator", displayName := "Operator 10", employeeId := "970310" },
  { badgeId := "97025101", role := "operator", displayName := "Operator 11", employeeId := "97025101" },
  { badgeId := "97025102", role := "operator", displayName := "Operator 12", employeeId := "97025102" },
  { badgeId := "97025103", role := "operator", displayName := "Operator 13", employeeId := "97025103" },
  { badgeId := "97025104", role := "operator", displayName := "Operator 14", employeeId := "97025104" },
  { badgeId := "97025105", role := "operator", displayName := "Operator 15", employeeId := "97025105" }
]

/-- `normalizeString`: `String(input || "").trim()`. -/
def normalizeString (input : Option String) : String :=
  jsTrim (optStrOr input "")

/-- `lookupUserByBadge`: trim-normalized exact badge match (no case
folding in the source). -/
def lookupUserByBadge (badgeId : String) : Option UserRosterEntry :=
  let normalizedInput := normalizeString (some badgeId)
  USER_ROSTER.find? fun user => normalizeString (some user.badgeId) == normalizedInput

/-- `lookupUserByEmail`: trim- and lower-case-normalized match against the
email or the badge id of each entry. -/
def lookupUserByEmail (email : String) : Option UserRosterEntry :=
  let normalizedInput := jsToLower (normalizeString (some email))
  USER_ROSTER.find? fun user =>
    jsToLower (normalizeString user.email) == normalizedInput ||
    jsToLower (normalizeString (some user.badgeId)) == normalizedInput

/-- `validateCredentials`: identifier lookup, then exact (unnormalized)
password comparison; entries without a configured password never match. -/
def validateCredentials (email password : String) : Option UserRosterEntry :=
  match lookupUserByEmail email with
  | none => none
  | some user =>
    match user.password with
    | none => none
    | some pw => if pw == "" then none else if pw == password then some user else none

/-- `validateBadgeScan`: identity lookup only, badge possession is the
credential. -/
def validateBadgeScan (badgeId : String) : Option UserRosterEntry :=
  lookupUserByBadge badgeId

/-! ### localStorage model -/

/-- A localStorage snapshot: key to stored string. -/
abbrev Store := String → Option String

/-- `localStorage.getItem`. -/
def Store.getItem (s : Store) (k : String) : Option String := s k

/-- `localStorage.setItem`. -/
def Store.setItem (s : Store) (k v : String) : Store :=
  fun k2 => if k2 = k then some v else s k2

/-- `localStorage.removeItem`. -/
def Store.removeItem (s : Store) (k : String) : Store :=
  fun k2 => if k2 = k then none else s k2

/-- An empty localStorage. -/
def emptyStore : Store := fun _ => none

/-! ### Authentication state machine (the AuthProvider context in App.tsx) -/

/-- The single storage key the authentication machine reads and writes. -/
def STORAGE_KEY : String := "ramptrack_v2_session"

/-- The in-memory `AuthState` as typed in the source:
`user: string; role: string; badgeId: string | null; name: string`. -/
structure AuthState where
  user : String
  role : String
  badgeId : Option String
  name : String
  deriving DecidableEq

/-- An auth record whose fields are raw JS values, as built by the
hydration effect and `refreshSession` from parsed JSON (TypeScript types
the result as `AuthState`, but the values are whatever the parsed record
held). -/
structure JsAuthState where
  user : Option Json
  role : Option Json
  badgeId : Option Json
  name : Option Json
  deriving DecidableEq

/-- The JS values held by a well-typed `AuthState` (a `null` badge is the
JS value `null`, not `undefined`). -/
def AuthState.toJs (a : AuthState) : JsAuthState :=
  { user := some (.str a.user)
  , role := some (.str a.role)
  , badgeId := match a.badgeId with | some s => some (.str s) | none => some .null
  , name := some (.str a.name) }

/-- The validation and name fix-up at the top of `setAuth`: falsy `user`
or `role` throws (`none`); otherwise `name` becomes
`name || badgeId || user || "Signed out"`. -/
def validateAuth (a : AuthState) : Option AuthState :=
  if a.user == "" || a.role == "" then none
  else some { a with name := strOr a.name (optStrOr a.badgeId (strOr a.user "Signed out")) }

/-- The `storageData` object written under `STORAGE_KEY`, shared verbatim
by `setAuth` and `login`: `username` is `badgeId || user`, `roles` is the
one-element array `[role]`. -/
def authToStorage (a : AuthState) : Json :=
  .obj (.cons "username" (.str (optStrOr a.badgeId a.user))
       (.cons "roles" (.arr (.cons (.str a.role) .nil))
       (.cons "displayName" (.str a.name)
       (.cons "badgeId" (match a.badgeId with | some s => Json.str s | none => Json.null)
        .nil))))

/-- The guard `storedData && storedData.username` used by the hydration
effect and by the `refreshSession` rebuild. -/
def hydrateGuard (j : Json) : Bool :=
  jsTruthy (some j) && jsTruthy (jsGet (some j) "username")

/-- The `authData` record the hydration effect (and the `refreshSession`
rebuild, which uses the same formulas) constructs from a parsed stored
record. -/
def hydrateAuthData (j : Json) : JsAuthState :=
  let username := jsGet (some j) "username"
  let roles := jsGet (some j) "roles"
  { user := username
  , role := if jsTruthy roles && jsIsArray roles then jsIndex0 roles else some (.str "guest")
  , badgeId := jsOr (jsGet (some j) "badgeId") username
  , name := jsOr (jsGet (some j) "displayName") (jsOr username (some (.str "Signed out"))) }

/-- Outcome of the startup hydration effect. `hydrationCompleted` is set
in the `finally` block of the effect. -/
structure HydrationResult where
  auth : Option JsAuthState
  hydrationCompleted : Bool
  deriving DecidableEq

/-- The startup hydration effect, as a function of the JSON parser
(`parse s = none` models `JSON.parse` throwing) and the store. Returns
the hydration outcome together with the store after the effect (the
stored entry is erased on a parse failure or an invalid structure). -/
def hydrate (parse : String → Option Json) (store : Store) :
    HydrationResult × Store :=
  match store.getItem STORAGE_KEY with
  | none => (⟨none, true⟩, store)
  | some s =>
    if s = "undefined" ∨ s = "" then (⟨none, true⟩, store)
    else
      match parse s with
      | none => (⟨none, true⟩, store.removeItem STORAGE_KEY)
      | some j =>
        if hydrateGuard j then (⟨some (hydrateAuthData j), true⟩, store)
        else (⟨none, true⟩, store.removeItem STORAGE_KEY)

/-- `isAuthReady` is set to `true` by a dedicated effect as soon as
`hydrationCompleted` becomes `true`. -/
def isAuthReadyAfterHydration (parse : String → Option Json) (store : Store) : Bool :=
  (hydrate parse store).1.hydrationCompleted

/-- The provider state relevant to the embedded operations. -/
structure MachState where
  auth : Option JsAuthState
  store : Store
  loginError : Option String
  isAuthReady : Bool
  isRefreshing : Bool

/-- `setAuth`: validate, fix up the name, set the in-memory state and
persist `storageData` under the canonical key; `none` models the throw on
invalid input. -/
def setAuth (stringify : Json → String) (s : MachState) (authData : AuthState) :
    Option MachState :=
  match validateAuth authData with
  | none => none
  | some v =>
    some { s with auth := some v.toJs
                , store := s.store.setItem STORAGE_KEY (stringify (authToStorage v))
                , isAuthReady := true }

/-- The `login` argument record. -/
structure Credentials where
  username : String
  password : String
  badge : Option String
  deriving DecidableEq

/-- The local validation step of `login`: a truthy `badge` selects the
badge-scan path, otherwise manual credentials are checked. -/
def loginValidate (c : Credentials) : Option UserRosterEntry :=
  if strTruthyOpt c.badge then validateBadgeScan (c.badge.getD "")
  else validateCredentials c.username c.password

/-- The `authData` record `login` constructs from a validated roster
entry: `user` is `email || badgeId`, `badgeId` is `badge || badgeId`,
`name` is `displayName || badgeId || email || "Signed out"`. -/
def loginAuthData (entry : UserRosterEntry) (badge : Option String) : AuthState :=
  { user := optStrOr entry.email entry.badgeId
  , role := entry.role
  , badgeId := some (optStrOr badge entry.badgeId)
  , name := strOr entry.displayName (strOr entry.badgeId (optStrOr entry.email "Signed out")) }

/-- `login`: clears the previous error, validates locally; on failure it
records the user-facing message and rethrows (second component), touching
neither the in-memory session nor the store; on success it sets the
session and persists it before the fire-and-forget advisory network call
(which never changes state and is therefore not part of the state
transition). `isAuthReady` is set in the `finally` block either way. -/
def login (stringify : Json → String) (s : MachState) (c : Credentials) :
    MachState × Option String :=
  let s0 := { s with loginError := none }
  match loginValidate c with
  | some entry =>
    let a := loginAuthData entry c.badge
    ({ s0 with auth := some a.toJs
             , store := s0.store.setItem STORAGE_KEY (stringify (authToStorage a))
             , isAuthReady := true }, none)
  | none =>
    let msg := if strTruthyOpt c.badge
               then "Badge " ++ c.badge.getD "" ++ " not found in system"
               else "Invalid username or password"
    ({ s0 with loginError := some msg, isAuthReady := true }, some msg)

/-- `clearLoginError`: clears only the recorded login error. -/
def clearLoginError (s : MachState) : MachState := { s with loginError := none }

/-- `logout`: clears the in-memory session, the canonical storage key and
the login error. -/
def logout (s : MachState) : MachState :=
  { s with auth := none, store := s.store.removeItem STORAGE_KEY, loginError := none }

/-- The synchronous entry of `refreshSession`: the busy-flag check. The
first component is `false` when the call returned `false` immediately
because a refresh was already in flight. -/
def refreshEntry (s : MachState) : Bool × MachState :=
  if s.isRefreshing then (false, s) else (true, { s with isRefreshing := true })

/-- The `refreshSession` body after the entry: re-read the store, rebuild
the session with the same formulas as hydration, race against the 5 s
timeout (the rebuild sleeps 800 ms, so it wins the race), clear the busy
flag in `finally`. Every internal error is caught and turned into
`false`. -/
def refreshBody (parse : String → Option Json) (s : MachState) : Bool × MachState :=
  match s.store.getItem STORAGE_KEY with
  | none => (false, { s with isRefreshing := false })
  | some raw =>
    if raw = "undefined" ∨ raw = "" then (false, { s with isRefreshing := false })
    else
      match parse raw with
      | none => (false, { s with isRefreshing := false })
      | some j =>
        if hydrateGuard j then
          (true, { s with auth := some (hydrateAuthData j), isRefreshing := false })
        else (false, { s with isRefreshing := false })

/-- A complete `refreshSession` call: entry then body, with concurrent
callers rejected at the entry. -/
def refreshSession (parse : String → Option Json) (s : MachState) : Bool × MachState :=
  let e := refreshEntry s
  if e.1 then refreshBody parse e.2 else (false, e.2)

/-! ### Session validation gate (src/frontend/src/lib/ensureUserContext.ts) -/

/-- The `UserContext` record; fields carry raw JS values since the parsed
records are untyped at runtime. -/
structure UserContext where
  employeeId : Option Json
  displayName : Option Json
  role : Option Json
  deriving DecidableEq

/-- The guest fallback context. -/
def guestContext : UserContext :=
  ⟨some (.str "GUEST"), some (.str "Guest User"), some (.str "guest")⟩

/-- `getLocalUserContext`: reads `ramptrack_auth_state` first, falling
back to `currentUser` when the former is falsy; parses and shapes the
record per source; any parse failure or shape mismatch falls through to
the guest context. It never consults `STORAGE_KEY`. -/
def getLocalUserContext (parse : String → Option Json) (store : Store) : UserContext :=
  let rawCanonical := store.getItem "ramptrack_auth_state"
  let stored := if strTruthyOpt rawCanonical then rawCanonical
                else store.getItem "currentUser"
  let fromLegacy := !strTruthyOpt rawCanonical
  if strTruthyOpt stored then
    match parse (stored.getD "") with
    | none => guestContext
    | some rawData =>
      if fromLegacy then
        if jsTruthy (some rawData) && jsTruthy (jsGet (some rawData) "username") &&
           jsTruthy (jsGet (some rawData) "roles") && jsIsArray (jsGet (some rawData) "roles") then
          { employeeId := jsGet (some rawData) "username"
          , displayName := jsOr (jsGet (some rawData) "displayName")
              (jsOr (jsGet (some rawData) "username") (some (.str "Signed out")))
          , role := jsOr (jsIndex0 (jsGet (some rawData) "roles")) (some (.str "guest")) }
        else guestContext
      else
        if jsTruthy (some rawData) && jsTruthy (jsGet (some rawData) "user") &&
           jsTruthy (jsGet (some rawData) "role") then
          { employeeId := jsOr (jsGet (some rawData) "badgeId") (jsGet (some rawData) "user")
          , displayName := jsOr (jsGet (some rawData) "name")
              (jsOr (jsGet (some rawData) "badgeId")
                (jsOr (jsGet (some rawData) "user") (some (.str "Signed out"))))
          , role := jsGet (some rawData) "role" }
        else guestContext
  else guestContext

/-- The message classification of the `catch` block of
`ensureUserContext`. -/
def isAuthFailureMessage (msg : String) : Bool :=
  strContains msg "401" || strContains msg "403" ||
  strContains msg "Invalid delegation" || strContains msg "Session expired"

/-- `ensureUserContext`. `thrown = some msg` models an exception with
message `msg` raised while consulting the session (caught by the `catch`
block); `thrown = none` is the normal run. The `operatorId` mismatch path
only logs, so the parameter does not influence the result. The local
context itself is never `null`, so the `!localContext` disjunct of the
source guard is vacuous. -/
def ensureUserContext (parse : String → Option Json) (store : Store)
    (operatorId : Option String) (thrown : Option String) : Bool :=
  match thrown with
  | some msg => if isAuthFailureMessage msg then false else true
  | none =>
    let localContext := getLocalUserContext parse store
    if localContext.employeeId = some (.str "GUEST") then false
    else true

/-- `handleAuthError`: removes the two gate auth keys and the
last-verified stamp; the function performs no navigation (it only touches
the store, which the return type makes explicit). -/
def handleAuthError (store : Store) : Store :=
  ((store.removeItem "ramptrack_auth_state").removeItem "currentUser").removeItem
    "ramptrack_last_verified"

/-! ### View router (App.tsx) -/

/-- The `validViews` / `validSignedInViews` list. -/
def validSignedInViews : List String :=
  ["roleSelection", "signOn", "agentMenu", "adminMenu", "takeEquipment",
   "returnEquipment", "reportIssue", "manageEquipment"]

/-- `getViewFromHash`: a fragment in the valid set verbatim, otherwise the
default `roleSelection`. -/
def getViewFromHash (hash : String) : String :=
  if validSignedInViews.contains hash then hash else "roleSelection"

/-- The rendered top-level screen. -/
inductive Screen where
  | login : Screen
  | signedIn (view : String) : Screen
  deriving DecidableEq

/-- The render decision of `App`: without `auth` the login screen is
rendered regardless of the fragment; with `auth` the screen named by
`getViewFromHash` is rendered. -/
def route (sessionPresent : Bool) (fragment : String) : Screen :=
  if sessionPresent then .signedIn (getViewFromHash fragment) else .login

/-- The fragment-normalization effect that runs when `auth` becomes
truthy: an empty or invalid fragment is rewritten to `roleSelection`; a
valid fragment is left untouched. -/
def normalizeFragmentOnAuth (sessionPresent : Bool) (fragment : String) : String :=
  if sessionPresent && (fragment == "" || !validSignedInViews.contains fragment)
  then "roleSelection" else fragment

/-! ### Concrete fixtures used by closed theorems -/

/-- A session whose badge differs from its subject. -/
def S0 : AuthState := ⟨"alice", "agent", some "B1", "Alice"⟩

/-- A `JSON.stringify` stand-in for the record `authToStorage S0`. -/
def s0Stringify : Json → String := fun _ => "S0REC"

/-- A `JSON.parse` stand-in inverting `s0Stringify` on that record. -/
def s0Parse : String → Option Json :=
  fun s => if s = "S0REC" then some (authToStorage S0) else none

/-- The provider state before hydration: no session, empty store. -/
def machEmpty : MachState := ⟨none, emptyStore, none, false, false⟩

/-- The session read back by hydration from the store `setAuth` leaves
behind for `S0`. -/
def s0ReadBack : Option JsAuthState :=
  match setAuth s0Stringify machEmpty S0 with
  | some s2 => (hydrate s0Parse s2.store).1.auth
  | none => none

/-- A session whose badge equals its subject (the lossless case). -/
def W1 : AuthState := ⟨"u1", "agent", some "u1", "U One"⟩

/-- A `JSON.stringify` stand-in for the record `authToStorage W1`. -/
def w1Stringify : Json → String := fun _ => "W1REC"

/-- A `JSON.parse` stand-in inverting `w1Stringify` on that record. -/
def w1Parse : String → Option Json :=
  fun s => if s = "W1REC" then some (authToStorage W1) else none

/-- A store with all three gate keys and the machine key populated. -/
def storeAllKeys : Store := fun k =>
  if k = "ramptrack_v2_session" then some "sess"
  else if k = "ramptrack_auth_state" then some "canon"
  else if k = "currentUser" then some "legacy"
  else if k = "ramptrack_last_verified" then some "stamp"
  else none

/-- A store holding only the machine key `ramptrack_v2_session`. -/
def storeOnlyMachineKey : Store :=
  fun k => if k = "ramptrack_v2_session" then some "sess" else none

/-- A stored record with a badge differing from the stored username and no
display name: hydration input for the fallback-order counterexample. -/
def hydrCxRecord : Json :=
  .obj (.cons "username" (.str "u1")
       (.cons "roles" (.arr (.cons (.str "agent") .nil))
       (.cons "badgeId" (.str "B9") .nil)))

/-- A store whose machine key holds the literal string `undefined`. -/
def storeUndefLiteral : Store :=
  fun k => if k = "ramptrack_v2_session" then some "undefined" else none

/-- Credentials that fail manual validation against the roster. -/
def badCreds : Credentials := ⟨"nosuchuser@x.com", "wrongpw", none⟩

/-- The demo roster entry (first entry of `USER_ROSTER`). -/
def demoEntry : UserRosterEntry :=
  { badgeId := "DEMO001", email := some "operator@demo.com", password := some "test123",
    role := "agent", displayName := "Demo Operator", employeeId := "DEMO001" }

/-! ### Helper lemmas -/

theorem strOr_ne (a b : String) (hb : b ≠ "") : strOr a b ≠ "" := by
  by_cases h : a = "" <;> simp [strOr, h, hb]

theorem optStrOr_ne (o : Option String) (b : String) (hb : b ≠ "") :
    optStrOr o b ≠ "" := by
  cases o with
  | none => exact hb
  | some s => exact strOr_ne s b hb

theorem normalizeString_some (x : String) :
    normalizeString (some x) = jsTrim x := by
  by_cases h : x = "" <;> simp [normalizeString, optStrOr, strOr, h]

theorem validateAuth_some (a v : AuthState) (h : validateAuth a = some v) :
    v = { a with name := strOr a.name (optStrOr a.badgeId (strOr a.user "Signed out")) } ∧
    v.user ≠ "" ∧ v.role ≠ "" ∧ v.name ≠ "" := by
  unfold validateAuth at h
  by_cases hc : (a.user == "" || a.role == "") = true
  · simp [hc] at h
  · simp [hc] at h
    simp only [Bool.or_eq_true, beq_iff_eq, not_or] at hc
    obtain ⟨hu, hr⟩ := hc
    refine ⟨h.symm, ?_, ?_, ?_⟩
    · rw [← h]; exact hu
    · rw [← h]; exact hr
    · rw [← h]
      exact strOr_ne _ _ (optStrOr_ne _ _ (strOr_ne _ _ (by decide)))

theorem hydrateGuard_authToStorage (v : AuthState) (hu : v.user ≠ "") :
    hydrateGuard (authToStorage v) = true := by
  simp [hydrateGuard, authToStorage, jsGet, JsonObj.get, jsTruthy]
  exact optStrOr_ne _ _ hu

theorem hydrateAuthData_authToStorage (v : AuthState) (hn : v.name ≠ "") :
    hydrateAuthData (authToStorage v) =
      ⟨some (.str (optStrOr v.badgeId v.user)), some (.str v.role),
       some (.str (optStrOr v.badgeId v.user)), some (.str v.name)⟩ := by
  cases hb : v.badgeId with
  | none =>
    simp [hydrateAuthData, authToStorage, jsGet, JsonObj.get, jsOr, jsTruthy,
          jsIsArray, jsIndex0, optStrOr, hb, hn]
  | some bs =>
    by_cases hbs : bs = "" <;>
      simp [hydrateAuthData, authToStorage, jsGet, JsonObj.get, jsOr, jsTruthy,
            jsIsArray, jsIndex0, optStrOr, strOr, hb, hbs, hn]

theorem roundtrip_image_eq_iff (v : AuthState) (hu : v.user ≠ "") :
    ((⟨some (.str (optStrOr v.badgeId v.user)), some (.str v.role),
       some (.str (optStrOr v.badgeId v.user)), some (.str v.name)⟩ : JsAuthState) =
      v.toJs) ↔ v.badgeId = some v.user := by
  cases hb : v.badgeId with
  | none =>
    simp [AuthState.toJs, optStrOr, hb, JsAuthState.mk.injEq]
  | some bs =>
    by_cases hbs : bs = ""
    · subst hbs
      simp [AuthState.toJs, optStrOr, strOr, hb, JsAuthState.mk.injEq]
      exact eq_comm
    · simp [AuthState.toJs, optStrOr, strOr, hb, hbs, JsAuthState.mk.injEq]

theorem badge_message_ne (b : String) :
    ("Badge " ++ b ++ " not found in system") ≠ "" := by
  intro h
  have hl := congrArg String.length h
  rw [String.length_append, String.length_append] at hl
  simp only [show ("Badge " : String).length = 6 from rfl,
             show (" not found in system" : String).length = 20 from rfl,
             show ("" : String).length = 0 from rfl] at hl
  omega

theorem roster_find_badge_exact :
    ∀ u ∈ USER_ROSTER,
      (USER_ROSTER.find? fun u2 => jsTrim u2.badgeId == jsTrim u.badgeId) = some u := by
  decide

theorem roster_find_email_exact :
    ∀ u ∈ USER_ROSTER, u.email.isSome = true →
      (USER_ROSTER.find? fun u2 =>
        jsToLower (normalizeString u2.email) == jsToLower (normalizeString u.email) ||
        jsToLower (jsTrim u2.badgeId) == jsToLower (normalizeString u.email)) =
        some u := by
  decide

/-! ### Claim theorems -/

/-- C2: the Session Validation Gate `ensureUserContext` returns false iff
either the session consultation completed and found no local session (the
guest context), or an exception was raised whose message contains one of
the four genuine-authentication-failure markers (401, 403, Invalid
delegation, Session expired); in every other case it returns true — in
particular an operator-id mismatch only logs and returns true, and an
exception whose message is exactly "network timeout" returns true. -/
theorem ensureUserContext_gate_spec :
    (∀ (parse : String → Option Json) (store : Store) (operatorId thrown : Option String),
      ensureUserContext parse store operatorId thrown = false ↔
        ((thrown = none ∧
            (getLocalUserContext parse store).employeeId = some (.str "GUEST")) ∨
         (∃ msg, thrown = some msg ∧ isAuthFailureMessage msg = true))) ∧
    (∀ (parse : String → Option Json) (store : Store) (operatorId : Option String),
      ensureUserContext parse store operatorId (some "network timeout") = true) ∧
    (∀ (parse : String → Option Json) (store : Store) (opId : String),
      (getLocalUserContext parse store).employeeId ≠ some (.str "GUEST") →
      ensureUserContext parse store (some opId) none = true) := by
  refine ⟨fun parse store operatorId thrown => ?_, fun parse store operatorId => ?_,
          fun parse store opId h => ?_⟩
  · cases thrown with
    | none =>
      by_cases h : (getLocalUserContext parse store).employeeId = some (.str "GUEST") <;>
        simp [ensureUserContext, h]
    | some msg =>
      by_cases h : isAuthFailureMessage msg = true
      · simp [ensureUserContext, h]
      · simp only [Bool.not_eq_true] at h
        simp [ensureUserContext, h]
  · have h : isAuthFailureMessage "network timeout" = false := by decide
    simp [ensureUserContext, h]
  · simp [ensureUserContext, h]

/-- C2 witness: a thrown "network timeout" is non-blocking on a concrete
run. -/
theorem ensureUserContext_gate_spec_witness :
    ensureUserContext (fun _ => none) emptyStore none (some "network timeout") = true :=
  ensureUserContext_gate_spec.2.1 (fun _ => none) emptyStore none

/-- C3: when the only populated session key is `ramptrack_v2_session` (the
key the authentication machine reads and writes), the gate falls back to
the guest context and `ensureUserContext` returns false: the gate
consults only `ramptrack_auth_state` and `currentUser`, never the machine
key. -/
theorem gate_ignores_machine_key (parse : String → Option Json) (store : Store)
    (v : String)
    (h1 : store "ramptrack_auth_state" = none)
    (h2 : store "currentUser" = none)
    (h3 : store "ramptrack_v2_session" = some v) :
    getLocalUserContext parse store = guestContext ∧
    ensureUserContext parse store none none = false := by
  have hg : getLocalUserContext parse store = guestContext := by
    simp [getLocalUserContext, Store.getItem, h1, h2, strTruthyOpt]
  refine ⟨hg, ?_⟩
  simp [ensureUserContext, hg, guestContext]

/-- C3 witness: a concrete store holding only the machine key yields the
guest context and a blocked gate. -/
theorem gate_ignores_machine_key_witness :
    getLocalUserContext (fun _ => none) storeOnlyMachineKey = guestContext ∧
    ensureUserContext (fun _ => none) storeOnlyMachineKey none none = false :=
  gate_ignores_machine_key (fun _ => none) storeOnlyMachineKey "sess"
    (by decide) (by decide) (by decide)

/-- C4 counterexample: on a store where every session key is populated,
`handleAuthError` removes the gate keys but leaves the canonical machine
key `ramptrack_v2_session` (the single key `login`, `setAuth` and
hydration write) populated — so it does not remove every local session
storage key. -/
theorem handleAuthError_spares_machine_key :
    storeAllKeys "ramptrack_v2_session" = some "sess" ∧
    handleAuthError storeAllKeys "ramptrack_v2_session" = some "sess" ∧
    handleAuthError storeAllKeys "ramptrack_auth_state" = none ∧
    handleAuthError storeAllKeys "currentUser" = none ∧
    handleAuthError storeAllKeys "ramptrack_last_verified" = none := by
  decide

/-- C4 amended: `handleAuthError` removes exactly the gate keys
`ramptrack_auth_state`, `currentUser` and `ramptrack_last_verified` from
localStorage and leaves every other key — including the canonical machine
key `ramptrack_v2_session` — unchanged; it only transforms the store and
performs no navigation. -/
theorem handleAuthError_clears_gate_keys (store : Store) :
    handleAuthError store "ramptrack_auth_state" = none ∧
    handleAuthError store "currentUser" = none ∧
    handleAuthError store "ramptrack_last_verified" = none ∧
    (∀ k, k ≠ "ramptrack_auth_state" → k ≠ "currentUser" →
      k ≠ "ramptrack_last_verified" → handleAuthError store k = store k) ∧
    handleAuthError store "ramptrack_v2_session" = store "ramptrack_v2_session" := by
  refine ⟨?_, ?_, ?_, fun k h1 h2 h3 => ?_, ?_⟩ <;>
    simp [handleAuthError, Store.removeItem, *]

/-- C4 witness: a key outside the cleared set survives on a concrete
store. -/
theorem handleAuthError_clears_gate_keys_witness :
    handleAuthError storeOnlyMachineKey "ramptrack_v2_session" =
      storeOnlyMachineKey "ramptrack_v2_session" :=
  (handleAuthError_clears_gate_keys storeOnlyMachineKey).2.2.2.2

/-- C5: hydration is total on garbage input — for every stored value under
the canonical key (absent, the literal "undefined", the empty string,
unparseable JSON, or JSON failing the structure guard) hydration
completes, the readiness flags become true, no session is produced, and
in the malformed-parse and invalid-structure cases the stored entry is
erased. -/
theorem hydration_total_on_garbage (parse : String → Option Json) (store : Store) :
    (hydrate parse store).1.hydrationCompleted = true ∧
    isAuthReadyAfterHydration parse store = true ∧
    (store.getItem STORAGE_KEY = none →
      (hydrate parse store).1.auth = none ∧ (hydrate parse store).2 = store) ∧
    (∀ s, store.getItem STORAGE_KEY = some s → (s = "undefined" ∨ s = "") →
      (hydrate parse store).1.auth = none ∧ (hydrate parse store).2 = store) ∧
    (∀ s, store.getItem STORAGE_KEY = some s → s ≠ "undefined" → s ≠ "" →
      parse s = none →
      (hydrate parse store).1.auth = none ∧
      ((hydrate parse store).2).getItem STORAGE_KEY = none) ∧
    (∀ s j, store.getItem STORAGE_KEY = some s → s ≠ "undefined" → s ≠ "" →
      parse s = some j → hydrateGuard j = false →
      (hydrate parse store).1.auth = none ∧
      ((hydrate parse store).2).getItem STORAGE_KEY = none) := by
  have hcomp : (hydrate parse store).1.hydrationCompleted = true := by
    unfold hydrate
    split
    · rfl
    · split
      · rfl
      · split
        · rfl
        · split <;> rfl
  refine ⟨hcomp, hcomp, fun h => ?_, fun s hs hc => ?_, fun s hs h1 h2 hp => ?_,
          fun s j hs h1 h2 hp hg => ?_⟩
  · simp only [Store.getItem] at h
    simp [hydrate, Store.getItem, h]
  · simp only [Store.getItem] at hs
    rcases hc with hc | hc <;> subst hc <;> simp [hydrate, Store.getItem, hs]
  · simp only [Store.getItem] at hs
    simp [hydrate, hs, h1, h2, hp, Store.getItem, Store.removeItem]
  · simp only [Store.getItem] at hs
    simp [hydrate, hs, h1, h2, hp, hg, Store.getItem, Store.removeItem]

/-- C5 witness: the literal string "undefined" under the canonical key
hydrates to readiness without a session and without touching the store. -/
theorem hydration_total_on_garbage_witness :
    (hydrate (fun _ => none) storeUndefLiteral).1.hydrationCompleted = true ∧
    (hydrate (fun _ => none) storeUndefLiteral).1.auth = none ∧
    (hydrate (fun _ => none) storeUndefLiteral).2 = storeUndefLiteral :=
  ⟨(hydration_total_on_garbage (fun _ => none) storeUndefLiteral).1,
   ((hydration_total_on_garbage (fun _ => none) storeUndefLiteral).2.2.2.1 "undefined"
      (by decide) (Or.inl rfl)).1,
   ((hydration_total_on_garbage (fun _ => none) storeUndefLiteral).2.2.2.1 "undefined"
      (by decide) (Or.inl rfl)).2⟩

/-- C6: a `login` whose local validation fails leaves the in-memory and
the persisted session untouched and records a non-empty user-facing
error; a subsequent `clearLoginError` sets only the error to `none`. -/
theorem login_failure_nondestructive (stringify : Json → String) (s : MachState)
    (c : Credentials) (hfail : loginValidate c = none) :
    (login stringify s c).1.auth = s.auth ∧
    (login stringify s c).1.store = s.store ∧
    (∃ m, (login stringify s c).1.loginError = some m ∧ m ≠ "" ∧
      (login stringify s c).2 = some m) ∧
    clearLoginError (login stringify s c).1 =
      { (login stringify s c).1 with loginError := none } ∧
    (clearLoginError (login stringify s c).1).auth = (login stringify s c).1.auth ∧
    (clearLoginError (login stringify s c).1).store = (login stringify s c).1.store ∧
    (clearLoginError (login stringify s c).1).isAuthReady =
      (login stringify s c).1.isAuthReady ∧
    (clearLoginError (login stringify s c).1).isRefreshing =
      (login stringify s c).1.isRefreshing ∧
    (clearLoginError (login stringify s c).1).loginError = none := by
  have hl : login stringify s c =
      ({ s with loginError := some (if strTruthyOpt c.badge
            then "Badge " ++ c.badge.getD "" ++ " not found in system"
            else "Invalid username or password"), isAuthReady := true },
       some (if strTruthyOpt c.badge
            then "Badge " ++ c.badge.getD "" ++ " not found in system"
            else "Invalid username or password")) := by
    simp [login, hfail]
  rw [hl]
  refine ⟨rfl, rfl, ⟨_, rfl, ?_, rfl⟩, rfl, rfl, rfl, rfl, rfl, rfl⟩
  by_cases hb : strTruthyOpt c.badge = true
  · simp only [hb, if_true]
    exact badge_message_ne _
  · simp only [Bool.not_eq_true] at hb
    simp only [hb, Bool.false_eq_true, if_false]
    decide

/-- C6 witness: a failing manual login against a concrete state leaves
session and store unchanged and the cleared error is `none`. -/
theorem login_failure_nondestructive_witness :
    (login s0Stringify machEmpty badCreds).1.auth = machEmpty.auth ∧
    (login s0Stringify machEmpty badCreds).1.store = machEmpty.store ∧
    (clearLoginError (login s0Stringify machEmpty badCreds).1).loginError = none :=
  ⟨(login_failure_nondestructive s0Stringify machEmpty badCreds (by decide)).1,
   (login_failure_nondestructive s0Stringify machEmpty badCreds (by decide)).2.1,
   (login_failure_nondestructive s0Stringify machEmpty badCreds
      (by decide)).2.2.2.2.2.2.2.2⟩

/-- C7: `refreshSession` is at-most-one-in-flight: after a first call has
passed the entry (busy flag set), a second call issued before the first
resolves returns false immediately with the state unchanged, and the
first call's body computes the same outcome as if the second call had
never run. -/
theorem refreshSession_exclusive (parse : String → Option Json) (s : MachState)
    (h : s.isRefreshing = false) :
    (refreshEntry s).1 = true ∧
    ((refreshEntry s).2).isRefreshing = true ∧
    refreshSession parse ((refreshEntry s).2) = (false, (refreshEntry s).2) ∧
    refreshBody parse ((refreshSession parse ((refreshEntry s).2)).2) =
      refreshBody parse ((refreshEntry s).2) := by
  have he : refreshEntry s = (true, { s with isRefreshing := true }) := by
    simp [refreshEntry, h]
  have h2 : refreshSession parse ((refreshEntry s).2) = (false, (refreshEntry s).2) := by
    rw [he]
    simp [refreshSession, refreshEntry]
  exact ⟨by rw [he], by rw [he], h2, by rw [h2]⟩

/-- C7 witness: the second of two back-to-back refresh calls on a concrete
state returns false without altering the in-flight state. -/
theorem refreshSession_exclusive_witness :
    refreshSession (fun _ => none) ((refreshEntry machEmpty).2) =
      (false, (refreshEntry machEmpty).2) :=
  (refreshSession_exclusive (fun _ => none) machEmpty rfl).2.2.1

/-- C8: the view-routing rule — without a session the login screen is
rendered for every fragment; with a session a fragment in the valid
signed-in set is selected verbatim (and not rewritten); with a session an
empty or invalid fragment selects the default `roleSelection` and the
fragment is rewritten to match. -/
theorem route_rules :
    (∀ f, route false f = Screen.login) ∧
    (∀ f, validSignedInViews.contains f = true →
      route true f = Screen.signedIn f ∧ normalizeFragmentOnAuth true f = f) ∧
    (∀ f, validSignedInViews.contains f = false →
      route true f = Screen.signedIn "roleSelection" ∧
      normalizeFragmentOnAuth true f = "roleSelection") ∧
    (route true "" = Screen.signedIn "roleSelection" ∧
     normalizeFragmentOnAuth true "" = "roleSelection" ∧
     route true "agentMenu" = Screen.signedIn "agentMenu" ∧
     normalizeFragmentOnAuth true "agentMenu" = "agentMenu") := by
  refine ⟨fun f => rfl, fun f hf => ?_, fun f hf => ?_, by decide⟩
  · have hne : f ≠ "" := by
      intro e
      subst e
      exact absurd hf (by decide)
    have hmem : f ∈ validSignedInViews := by simpa using hf
    constructor
    · simp [route, getViewFromHash, hmem]
    · simp [normalizeFragmentOnAuth, hmem, hne]
  · have hmem : f ∉ validSignedInViews := by simpa using hf
    constructor
    · simp [route, getViewFromHash, hmem]
    · simp [normalizeFragmentOnAuth, hmem]

/-- C8 witness: concrete instances — a valid deep link survives, an empty
fragment defaults and is rewritten, and without a session the login
screen shows. -/
theorem route_rules_witness :
    (route true "agentMenu" = Screen.signedIn "agentMenu" ∧
      normalizeFragmentOnAuth true "agentMenu" = "agentMenu") ∧
    (route true "bogus" = Screen.signedIn "roleSelection" ∧
      normalizeFragmentOnAuth true "bogus" = "roleSelection") ∧
    route false "agentMenu" = Screen.login :=
  ⟨route_rules.2.1 "agentMenu" (by decide),
   route_rules.2.2.1 "bogus" (by decide),
   route_rules.1 "agentMenu"⟩

/-- C1 counterexample: the write→read round-trip through the canonical
key is not lossless for every persisted session — for `S0` (badge "B1",
subject "alice") the read-back session's subject is "B1", not "alice",
because `setAuth` stores `username := badgeId || user` and hydration
rebuilds `user` from the stored `username`. -/
theorem setAuth_roundtrip_cx :
    validateAuth S0 = some S0 ∧
    (setAuth s0Stringify machEmpty S0).isSome = true ∧
    s0Parse (s0Stringify (authToStorage S0)) = some (authToStorage S0) ∧
    s0ReadBack = some ⟨some (.str "B1"), some (.str "agent"),
      some (.str "B1"), some (.str "Alice")⟩ ∧
    S0.toJs = ⟨some (.str "alice"), some (.str "agent"),
      some (.str "B1"), some (.str "Alice")⟩ ∧
    s0ReadBack ≠ some S0.toJs := by
  decide

/-- C1 amended: for every session persisted by `setAuth` (and by `login`,
which writes the identical `storageData` shape) under the canonical key,
the read-back session preserves `role` and `displayName` exactly, while
both `user` and `badgeId` are rebuilt as `badgeId || user`; the read-back
equals the persisted session in all four fields precisely when the
persisted `badgeId` is present, non-empty and equal to `user`. The
`parse`/`stringify` hypotheses state the JSON-library round-trip contract
at the written record. -/
theorem setAuth_roundtrip (stringify : Json → String) (parse : String → Option Json)
    (s : MachState) (a v : AuthState)
    (hv : validateAuth a = some v)
    (hp : parse (stringify (authToStorage v)) = some (authToStorage v))
    (hnd : stringify (authToStorage v) ≠ "undefined")
    (hne : stringify (authToStorage v) ≠ "") :
    setAuth stringify s a =
      some { s with auth := some v.toJs
                  , store := s.store.setItem STORAGE_KEY (stringify (authToStorage v))
                  , isAuthReady := true } ∧
    (hydrate parse (s.store.setItem STORAGE_KEY (stringify (authToStorage v)))).1.auth =
      some ⟨some (.str (optStrOr v.badgeId v.user)), some (.str v.role),
            some (.str (optStrOr v.badgeId v.user)), some (.str v.name)⟩ ∧
    ((hydrate parse (s.store.setItem STORAGE_KEY (stringify (authToStorage v)))).1.auth =
        some v.toJs ↔ v.badgeId = some v.user) := by
  obtain ⟨hveq, hu, hr, hn⟩ := validateAuth_some a v hv
  have hget : (s.store.setItem STORAGE_KEY (stringify (authToStorage v))).getItem
      STORAGE_KEY = some (stringify (authToStorage v)) := by
    simp [Store.getItem, Store.setItem]
  have hguard : hydrateGuard (authToStorage v) = true := hydrateGuard_authToStorage v hu
  have hhyd : (hydrate parse
      (s.store.setItem STORAGE_KEY (stringify (authToStorage v)))).1.auth =
      some (hydrateAuthData (authToStorage v)) := by
    unfold hydrate
    rw [hget]
    simp [hnd, hne, hp, hguard]
  refine ⟨by simp [setAuth, hv], ?_, ?_⟩
  · rw [hhyd, hydrateAuthData_authToStorage v hn]
  · rw [hhyd, hydrateAuthData_authToStorage v hn]
    simp only [Option.some.injEq]
    exact roundtrip_image_eq_iff v hu

/-- C1 witness: a session whose badge equals its subject round-trips
losslessly on a concrete run. -/
theorem setAuth_roundtrip_witness :
    (hydrate w1Parse (machEmpty.store.setItem STORAGE_KEY
      (w1Stringify (authToStorage W1)))).1.auth = some W1.toJs :=
  ((setAuth_roundtrip w1Stringify w1Parse machEmpty W1 W1 (by decide) (by decide)
      (by decide) (by decide)).2.2).mpr (by decide)

/-- C9 counterexample: badge lookups only trim, they do not case-fold —
the input "demo001", differing from the roster badge "DEMO001" only in
letter case, is not found by `lookupUserByBadge`/`validateBadgeScan`. -/
theorem badge_lookup_not_case_folded :
    (USER_ROSTER.any fun u => u.badgeId == "DEMO001") = true ∧
    jsToLower "demo001" = jsToLower "DEMO001" ∧
    jsTrim "demo001" = "demo001" ∧
    lookupUserByBadge "demo001" = none ∧
    validateBadgeScan "demo001" = none := by
  decide

/-- C9 amended: `lookupUserByEmail` (and therefore `validateCredentials`)
normalizes by trimming and case-folding, so any input agreeing with an
entry's email up to surrounding whitespace and letter case finds that
entry; `lookupUserByBadge`/`validateBadgeScan` normalize by trimming
only, so any input agreeing with an entry's badge up to surrounding
whitespace finds that entry — but case differences in badges do not
match. Passwords are compared exactly, without normalization. -/
theorem roster_lookup_normalization :
    (∀ s u, u ∈ USER_ROSTER → jsTrim s = jsTrim u.badgeId →
      lookupUserByBadge s = some u ∧ validateBadgeScan s = some u) ∧
    (∀ s u, u ∈ USER_ROSTER → u.email.isSome = true →
      jsToLower (jsTrim s) = jsToLower (normalizeString u.email) →
      lookupUserByEmail s = some u) ∧
    (∀ s u p, u ∈ USER_ROSTER → u.email.isSome = true →
      jsToLower (jsTrim s) = jsToLower (normalizeString u.email) →
      u.password = some p → p ≠ "" →
      validateCredentials s p = some u) := by
  have hbadge : ∀ s u, u ∈ USER_ROSTER → jsTrim s = jsTrim u.badgeId →
      lookupUserByBadge s = some u := by
    intro s u hu hs
    unfold lookupUserByBadge
    simp only [normalizeString_some, hs]
    exact roster_find_badge_exact u hu
  have hemail : ∀ s u, u ∈ USER_ROSTER → u.email.isSome = true →
      jsToLower (jsTrim s) = jsToLower (normalizeString u.email) →
      lookupUserByEmail s = some u := by
    intro s u hu he hs
    unfold lookupUserByEmail
    simp only [normalizeString_some, hs]
    exact roster_find_email_exact u hu he
  refine ⟨fun s u hu hs => ⟨hbadge s u hu hs, hbadge s u hu hs⟩,
          hemail, fun s u p hu he hs hpw hpne => ?_⟩
  unfold validateCredentials
  rw [hemail s u hu he hs]
  simp [hpw, hpne]

/-- C9 witness: whitespace-padded badge input and whitespace/case-variant
email input find the demo entry on concrete runs. -/
theorem roster_lookup_normalization_witness :
    lookupUserByBadge " DEMO001 " = some demoEntry ∧
    lookupUserByEmail " Operator@Demo.COM " = some demoEntry ∧
    validateCredentials "OPERATOR@DEMO.COM" "test123" = some demoEntry :=
  ⟨(roster_lookup_normalization.1 " DEMO001 " demoEntry (by decide) (by decide)).1,
   roster_lookup_normalization.2.1 " Operator@Demo.COM " demoEntry
     (by decide) (by decide) (by decide),
   roster_lookup_normalization.2.2 "OPERATOR@DEMO.COM" demoEntry "test123"
     (by decide) (by decide) (by decide) (by decide) (by decide)⟩

/-- C10 counterexample: on the hydration construction path the fallback
chain has no badge step — for a stored record with username "u1", badge
"B9" and no display name, the constructed session carries badge "B9" but
exposes display identity "u1" (the stored username), not "B9" as the
three-level displayName→badgeId→subject chain would demand. -/
theorem hydration_fallback_skips_badge :
    hydrateGuard hydrCxRecord = true ∧
    jsGet (some hydrCxRecord) "displayName" = none ∧
    (hydrateAuthData hydrCxRecord).badgeId = some (.str "B9") ∧
    (hydrateAuthData hydrCxRecord).user = some (.str "u1") ∧
    (hydrateAuthData hydrCxRecord).name = some (.str "u1") ∧
    (Json.str "u1") ≠ (Json.str "B9") := by
  decide

/-- C10 amended: every constructed session has a non-empty display name;
`login` and `setAuth` obtain it by the fallback
displayName → badgeId → subject → "Signed out", while hydration and the
refresh rebuild use displayName → stored username → "Signed out" with no
badge step (which agrees with the three-level chain on records written by
`setAuth`/`login`, whose stored username is badgeId-else-subject); the
two concrete fallback examples hold on the `setAuth` path. -/
theorem displayName_fallback_per_path :
    (∀ a v, validateAuth a = some v →
      v.name ≠ "" ∧
      v.name = strOr a.name (optStrOr a.badgeId (strOr a.user "Signed out"))) ∧
    (∀ entry badge, (loginAuthData entry badge).name ≠ "" ∧
      (loginAuthData entry badge).name =
        strOr entry.displayName (strOr entry.badgeId (optStrOr entry.email "Signed out"))) ∧
    (∀ j, hydrateGuard j = true →
      jsTruthy (hydrateAuthData j).name = true ∧
      (hydrateAuthData j).name =
        jsOr (jsGet (some j) "displayName")
          (jsOr (jsGet (some j) "username") (some (.str "Signed out")))) ∧
    (∀ v : AuthState, v.name ≠ "" →
      (hydrateAuthData (authToStorage v)).name = some (.str v.name)) ∧
    validateAuth ⟨"u1", "agent", some "B1", ""⟩ = some ⟨"u1", "agent", some "B1", "B1"⟩ ∧
    validateAuth ⟨"u1", "agent", none, ""⟩ = some ⟨"u1", "agent", none, "u1"⟩ := by
  refine ⟨fun a v hv => ?_, fun entry badge => ?_, fun j hj => ?_, fun v hn => ?_,
          by decide, by decide⟩
  · obtain ⟨hveq, hu, hr, hn⟩ := validateAuth_some a v hv
    exact ⟨hn, by rw [hveq]⟩
  · exact ⟨strOr_ne _ _ (strOr_ne _ _ (optStrOr_ne _ _ (by decide))), rfl⟩
  · refine ⟨?_, rfl⟩
    unfold hydrateGuard at hj
    simp only [Bool.and_eq_true] at hj
    unfold hydrateAuthData
    dsimp only
    by_cases hd : jsTruthy (jsGet (some j) "displayName") = true
    · simp [jsOr, hd]
    · simp only [Bool.not_eq_true] at hd
      simp [jsOr, hd, hj.2]
  · rw [hydrateAuthData_authToStorage v hn]

/-- C10 witness: the setAuth-path fallback example and the hydration name
preservation hold on concrete inputs. -/
theorem displayName_fallback_per_path_witness :
    validateAuth ⟨"u1", "agent", some "B1", ""⟩ = some ⟨"u1", "agent", some "B1", "B1"⟩ ∧
    (hydrateAuthData (authToStorage W1)).name = some (.str "U One") :=
  ⟨displayName_fallback_per_path.2.2.2.2.1,
   displayName_fallback_per_path.2.2.2.1 W1 (by decide)⟩

end RampTrack
